import Mathlib

/-!
Verification of the scaffolding flow of the `generator-teams` repository.

The development shallowly embeds the two components of
`src/packages/generator-teams/src/app/GeneratorTeamsApp.ts`:

* `GeneratorTeamsApp` — the yeoman generator driving option resolution
  (`prompting`), the write phase (`writing`) and usage reporting
  (`install`), together with the process-exit contract of the run; and
* `Scaffolder` — the editor trigger command that collects a parent folder
  and a solution name and shells out to the generator.

JavaScript strings are embedded as Lean `String`, `undefined`-able values
as `Option`, and the JavaScript truthiness conventions that the source
relies on (`""`, `undefined` and `false` are falsy) are made explicit
through the `jsTruthyStr` / `Option.getD` helpers below.  External
collaborators that the spec declares out of scope (manifest generators,
the core-files updater, the telemetry client, the prompt library and the
editor API) are represented by boolean/functional fields of the
environment record, each documented at its declaration.
-/

/-- Truthiness of a JavaScript `string | undefined` value: `undefined` and
the empty string are falsy, every other string is truthy. -/
def jsTruthyStr : Option String → Bool
  | none => false
  | some s => !(s == "")

/-- JavaScript `a || b` for `a : string | undefined` and a string `b`:
returns `a` when it is truthy, otherwise `b`. -/
def jsOrStr (a : Option String) (b : String) : String :=
  if jsTruthyStr a then a.getD "" else b

/-- Model of `String.prototype.toLocaleLowerCase` for the ASCII strings the
generator manipulates. -/
def toLocaleLowerCase (s : String) : String :=
  String.mk (s.toList.map Char.toLower)

/-- Model of `String.prototype.endsWith` for a one-character suffix test. -/
def jsEndsWith (s suffix : String) : Bool :=
  List.isSuffixOf suffix.toList s.toList

/-- Splitting pass of `String.prototype.split('.')`: `acc` holds the
current segment in reverse. -/
def splitOnDotAux : List Char → List Char → List (List Char)
  | [], acc => [acc.reverse]
  | c :: rest, acc =>
    if c = '.' then acc.reverse :: splitOnDotAux rest []
    else splitOnDotAux rest (c :: acc)

/-- Model of JavaScript `s.split('.')`. -/
def jsSplitDot (s : String) : List String :=
  (splitOnDotAux s.toList []).map String.mk

/-- Interleaving pass of `Array.prototype.join('.')`. -/
def joinDotsAux : List (List Char) → List Char
  | [] => []
  | [w] => w
  | w :: ws => w ++ '.' :: joinDotsAux ws

/-- Model of JavaScript `arr.join('.')`. -/
def jsJoinDot (l : List String) : String :=
  String.mk (joinDotsAux (l.map String.toList))

/-- First position (from `i`) at which `pat` occurs as a contiguous
sublist, or `none`. -/
def indexOfFrom : List Char → List Char → Nat → Option Nat
  | [], pat, i => if pat = [] then some i else none
  | c :: rest, pat, i =>
    if List.isPrefixOf pat (c :: rest) then some i
    else indexOfFrom rest pat (i + 1)

/-- Model of JavaScript `String.prototype.indexOf`: index of the first
occurrence of `pat` in `s`, or `-1`. -/
def jsIndexOf (s pat : String) : Int :=
  match indexOfFrom s.toList pat.toList 0 with
  | some n => (n : Int)
  | none => -1

/-- Model of JavaScript `String.prototype.substring`: both bounds are
clamped to `[0, length]` and swapped when out of order. -/
def jsSubstring (s : String) (a b : Int) : String :=
  let n : Int := (s.toList.length : Int)
  let x : Nat := ((max 0 (min a n)).toNat)
  let y : Nat := ((max 0 (min b n)).toNat)
  let lo := min x y
  let hi := max x y
  String.mk ((s.toList.drop lo).take (hi - lo))

/-- JavaScript `s.substring(a)` — from `a` to the end of the string. -/
def jsSubstringFrom (s : String) (a : Int) : String :=
  jsSubstring s a (s.toList.length : Int)

/-- Characters treated as alphanumeric by the ASCII model of
`lodash.camelCase`. -/
def isAlnumChar (c : Char) : Bool :=
  c.isAlpha || c.isDigit

/-- Word-splitting pass of the ASCII model of `lodash.camelCase`: words are
maximal alphanumeric runs, additionally split where a lower-case letter or
digit is followed by an upper-case letter.  `acc` holds the current word in
reverse. -/
def camelWordsAux : List Char → List Char → List (List Char)
  | [], acc => if acc = [] then [] else [acc.reverse]
  | c :: rest, acc =>
    if !isAlnumChar c then
      (if acc = [] then [] else [acc.reverse]) ++ camelWordsAux rest []
    else if c.isUpper && (match acc.head? with
        | some p => p.isLower || p.isDigit
        | none => false) then
      acc.reverse :: camelWordsAux rest [c]
    else
      camelWordsAux rest (c :: acc)

/-- Capitalisation of one word: first character upper-cased, the rest
lower-cased. -/
def capitalizeWord : List Char → List Char
  | [] => []
  | c :: rest => c.toUpper :: rest.map Char.toLower

/-- ASCII model of `lodash.camelCase`, as used at
`GeneratorTeamsApp.prompting` to derive the library name from the solution
name: the first word is lower-cased and every following word is
capitalised. -/
def camelCase (s : String) : String :=
  match camelWordsAux s.toList [] with
  | [] => ""
  | w :: ws => String.mk (w.map Char.toLower ++ (ws.map capitalizeWord).flatten)

/-- The part of an existing `src/manifest/manifest.json` document that the
generator reads (`GeneratorTeamsApp.prompting`, lines 469–495). -/
structure ExistingManifest where
  manifestVersion : String
  nameShort : String
  developerName : String
  websiteUrl : String
deriving Repr, DecidableEq

/-- The answers record produced by the prompt series of
`GeneratorTeamsApp.prompting` (interface `IAnswers`).  Prompts that may be
skipped by their `when` condition carry `Option` types; a skipped prompt
leaves `none` (JavaScript `undefined`). -/
structure Answers where
  confirmedAdd : Option Bool := none
  solutionName : String := ""
  whichFolder : String := ""
  name : String := ""
  developer : String := ""
  updateManifestVersion : Option Bool := none
  manifestVersion : Option String := none
  mpnId : Option String := none
  parts : Option (List String) := none
  host : String := ""
  unitTestsEnabled : Option Bool := none
  lintingSupport : Option Bool := none
  useAzureAppInsights : Option Bool := none
  azureAppInsightsKey : String := ""
  updateBuildSystem : Option Bool := none
  showLoadingIndicator : Bool := false
  isFullScreen : Bool := false
  quickScaffolding : Bool := false
deriving Repr, DecidableEq

/-- Generator state established before prompting: the CLI-argument
solution name (yeoman argument `solutionName`) and the project description
(`this.description`). -/
structure InitialOptions where
  solutionName : Option String := none
  description : String := ""
deriving Repr, DecidableEq

/-- The resolved `GeneratorTeamsAppOptions` record, restricted to the
fields `GeneratorTeamsApp` itself assigns.  `namespace_` embeds the source
field `namespace` (a Lean keyword) and `websitePfx` embeds the source
field `websitePrefix`.  Boolean fields collapse JavaScript `undefined` to
`false` (both are falsy wherever the flow consumes them). -/
structure ProjectOptions where
  title : String := ""
  description : String := ""
  solutionName : String := ""
  shouldUseSubDir : Bool := false
  libraryName : String := ""
  packageName : String := ""
  developer : String := ""
  host : String := ""
  hostname : String := ""
  manifestVersion : Option String := none
  mpnId : Option String := none
  namespace_ : String := "teams"
  id : String := ""
  websitePfx : String := ""
  showLoadingIndicator : Bool := false
  isFullScreen : Bool := false
  unitTestsEnabled : Bool := false
  lintingSupport : Bool := false
  useAzureAppInsights : Bool := false
  azureAppInsightsKey : String := ""
  updateManifestVersion : Bool := false
  updateBuildSystem : Bool := false
  bot : Bool := false
  tab : Bool := false
  connector : Bool := false
  customBot : Bool := false
  messageExtension : Bool := false
  localization : Bool := false
  reactComponents : Bool := false
  existingManifest : Option ExistingManifest := none
deriving Repr, DecidableEq

/-- Environment of one generator run: the state read from the project
directory and the behaviour of the external collaborators that the spec
declares out of scope.

* `schemaVersionValidWhenPresent` — Modelled from the spec: the result of
  `ManifestGeneratorFactory.isSchemaVersionValid` on a present existing
  manifest ("the manifest's schema version is ... in the supported set");
  the factory itself is an external collaborator.
* `updaterExistsFor` — Modelled from the spec: whether
  `CoreFilesUpdaterFactory.createCoreFilesUpdater` returns an updater for
  a stored generator version (the "currentVersion → updater" lookup).
* `updaterResult` — Modelled from the spec: the boolean result of the
  core-files updater's `updateCoreFiles` call.
* `webpackLibraryName` — Modelled from the spec: the result of
  `Yotilities.getLibraryNameFromWebpackConfig` (a build-config-declared
  library name, `undefined` when absent).
* `manifestVersionFromValue` — Modelled from the spec: the result of
  `ManifestGeneratorFactory.getManifestVersionFromValue` on the existing
  manifest's version value. -/
structure ScaffoldEnv where
  existingManifest : Option ExistingManifest
  schemaVersionValidWhenPresent : Bool
  answers : Answers
  storedGeneratorVersion : Option String
  updaterExistsFor : String → Bool
  updaterResult : Bool
  pkgVersion : String
  webpackLibraryName : Option String
  configLibraryName : Option String
  configUseAzureAppInsights : Option Bool
  configUnitTestsEnabled : Option Bool
  pkgJsonName : String
  manifestVersionFromValue : String → String

/-- Embedding of `ManifestGeneratorFactory.isSchemaVersionValid` as called
at `GeneratorTeamsApp.initializing` (line 136).  Modelled from the spec:
with no existing manifest the check passes (a brand-new project is never
rejected); with a manifest present the out-of-scope factory decides, which
the environment records as `schemaVersionValidWhenPresent`. -/
def isSchemaVersionValid (m : Option ExistingManifest) (validWhenPresent : Bool) : Bool :=
  match m with
  | none => true
  | some _ => validWhenPresent

/-- Option resolution for a brand-new project: the `!this.options.existingManifest`
branch of the `.then` continuation of `GeneratorTeamsApp.prompting`
(lines 432–468).  `freshId` stands for the value produced by `uuid()`. -/
def resolveNewOptions (opts0 : InitialOptions) (a : Answers) (freshId : String) : ProjectOptions :=
  let host := if jsEndsWith a.host "/" then jsSubstring a.host 0 ((a.host.toList.length : Int) - 1) else a.host
  let solutionName := jsOrStr opts0.solutionName a.solutionName
  let libraryName := camelCase solutionName
  let tmp := jsSubstringFrom host (jsIndexOf host "://" + 3)
  { title := a.name
    description := opts0.description
    solutionName := solutionName
    shouldUseSubDir := a.whichFolder == "subdir"
    libraryName := libraryName
    packageName := toLocaleLowerCase libraryName
    developer := a.developer
    host := host
    hostname := toLocaleLowerCase tmp
    manifestVersion := a.manifestVersion
    mpnId := if jsTruthyStr a.mpnId && ((a.mpnId.getD "").toList.length == 0) then none else a.mpnId
    namespace_ := toLocaleLowerCase (jsJoinDot (jsSplitDot tmp).reverse)
    id := freshId
    websitePfx :=
      if jsIndexOf host "azurewebsites.net" ≥ 0 then
        jsSubstring host (jsIndexOf host "://" + 3) (jsIndexOf host ".")
      else "[your Azure web app name]"
    showLoadingIndicator := a.showLoadingIndicator
    isFullScreen := a.isFullScreen
    unitTestsEnabled := a.unitTestsEnabled.getD false
    lintingSupport := a.quickScaffolding || a.lintingSupport.getD false
    useAzureAppInsights := a.useAzureAppInsights.getD false
    azureAppInsightsKey := a.azureAppInsightsKey
    updateManifestVersion := false
    updateBuildSystem := false
    existingManifest := none }

/-- Option resolution for an existing project: the `else` branch of the
`.then` continuation of `GeneratorTeamsApp.prompting` (lines 469–495).
The library name probes, in source order, the webpack-config name, the
stored `libraryName` config entry, then the `package.json` name, each
tested with JavaScript truthiness. -/
def resolveExistingOptions (opts0 : InitialOptions) (m : ExistingManifest) (a : Answers) (env : ScaffoldEnv) : ProjectOptions :=
  let libraryName :=
    if jsTruthyStr env.webpackLibraryName then env.webpackLibraryName.getD ""
    else if jsTruthyStr env.configLibraryName then env.configLibraryName.getD ""
    else env.pkgJsonName
  { developer := m.developerName
    title := m.nameShort
    hostname := ""
    useAzureAppInsights := env.configUseAzureAppInsights.getD false
    unitTestsEnabled := env.configUnitTestsEnabled.getD false
    libraryName := libraryName
    host := m.websiteUrl
    updateManifestVersion := a.updateManifestVersion.getD false
    manifestVersion :=
      if jsTruthyStr a.manifestVersion then a.manifestVersion
      else some (env.manifestVersionFromValue m.manifestVersion)
    updateBuildSystem := a.updateBuildSystem.getD false
    solutionName := (opts0.solutionName).getD ""
    existingManifest := some m }

/-- Projection of the `parts` checkbox answer onto the feature flags, and
the unconditional `reactComponents := false` reset (lines 497–505). -/
def applyParts (a : Answers) (o : ProjectOptions) : ProjectOptions :=
  match a.parts with
  | none => { o with reactComponents := false }
  | some parts =>
    { o with
      bot := parts.contains "bot"
      tab := parts.contains "tab"
      connector := parts.contains "connector"
      customBot := parts.contains "custombot"
      messageExtension := parts.contains "messageextension"
      localization := parts.contains "localization"
      reactComponents := false }

/-- One observable side effect of the write phase: a file written through
the in-memory filesystem, a `package.json` dependency / dev-dependency /
script / node entry, a project-local config-store write, or the invocation
of the external core-files updater. -/
inductive Effect where
  | fileWrite (path : String)
  | dep (package : String)
  | devDep (package : String)
  | script (name : String)
  | pkgNode (name : String)
  | configSet (key : String)
  | updaterRun
deriving Repr, DecidableEq

/-- Result of the write phase: the exit code when `process.exit` fired, and
the effects performed before that point (in source order). -/
structure WriteResult where
  exitCode : Option Nat
  effects : List Effect
deriving Repr, DecidableEq

/-- The fixed static (non-templated) file list of the new-project branch
(lines 523–534). -/
def staticFilesBase : List String :=
  ["_gitignore", "_vscode/launch.json", "src/server/tsconfig.json",
   "src/client/tsconfig.json", "src/manifest/icon-outline.png",
   "src/manifest/icon-color.png", "src/public/assets/icon.png",
   "src/public/styles/main.scss", "src/server/TeamsAppsComponents.ts",
   "Dockerfile"]

/-- The fixed templated file list of the new-project branch
(lines 536–547). -/
def templateFilesList : List String :=
  ["README.md", "gulpfile.js", "package.json", ".env",
   "src/server/server.ts", "webpack.config.js", "src/client/client.ts",
   "src/public/index.html", "src/public/tou.html", "src/public/privacy.html"]

/-- Static files appended when the unit-test toggle is set (lines 567–572). -/
def unitTestStaticFiles : List String :=
  ["src/test/test-setup.js", "src/test/test-shim.js",
   "src/client/jest.config.js", "src/server/jest.config.js"]

/-- Static files appended when the linting toggle is set (lines 599–604). -/
def lintStaticFiles : List String :=
  ["_eslintignore", "_eslintrc.json", "src/server/.eslintrc.json",
   "src/client/.eslintrc.json"]

/-- Dev dependencies recorded for the unit-test toggle (lines 573–584). -/
def unitTestDevDeps : List String :=
  ["enzyme", "@types/enzyme", "@types/jest", "@types/enzyme-to-json",
   "enzyme-adapter-react-16", "enzyme-to-json", "jest", "ts-jest",
   "jest-environment-jsdom", "cheerio"]

/-- Dev dependencies recorded for the linting toggle (lines 606–617). -/
def lintDevDeps : List String :=
  ["@typescript-eslint/eslint-plugin", "@typescript-eslint/parser",
   "eslint", "eslint-config-standard", "eslint-plugin-import",
   "eslint-plugin-node", "eslint-plugin-promise", "eslint-plugin-react",
   "eslint-plugin-react-hooks", "eslint-webpack-plugin"]

/-- Modelled from the spec: `Yotilities.fixFileNames` resolves
placeholders in a file name from `ProjectOptions` ("names may contain
placeholders resolved from ProjectOptions").  The placeholder substitution
itself is out of scope for every claim, so the name passes through. -/
def fixFileNames (t : String) (_ : ProjectOptions) : String :=
  t

/-- Effects of the new-project branch of `GeneratorTeamsApp.writing`
(lines 520–628), in source order: the manifest write, the templated
copies, the conditional unit-test and lint additions, then the static
copies (including the files the toggles appended). -/
def newProjectEffects (o : ProjectOptions) : List Effect :=
  [Effect.fileWrite (fixFileNames "src/manifest/manifest.json" o)] ++
  templateFilesList.map (fun t => Effect.fileWrite (fixFileNames t o)) ++
  (if o.unitTestsEnabled then
      unitTestDevDeps.map Effect.devDep ++
      [Effect.script "test", Effect.script "coverage", Effect.pkgNode "jest"]
    else []) ++
  (if o.lintingSupport then
      lintDevDeps.map Effect.devDep ++ [Effect.script "lint"]
    else []) ++
  ((staticFilesBase ++
      (if o.unitTestsEnabled then unitTestStaticFiles else []) ++
      (if o.lintingSupport then lintStaticFiles else [])).map
    (fun t => Effect.fileWrite (fixFileNames t o)))

/-- Effects shared by both branches at the end of the write phase
(lines 669–683): the conditional React and Application Insights
dependencies and the unconditional `generator-version` config write. -/
def writeTailEffects (o : ProjectOptions) : List Effect :=
  (if o.reactComponents then [Effect.dep "msteams-react-base-component"] else []) ++
  (if o.useAzureAppInsights then [Effect.dep "applicationinsights"] else []) ++
  [Effect.configSet "generator-version"]

/-- The manifest regeneration of the existing-project branch when a
manifest-version update was requested (lines 659–666). -/
def manifestUpdateEffects (o : ProjectOptions) : List Effect :=
  if o.updateManifestVersion then
    [Effect.fileWrite (fixFileNames "src/manifest/manifest.json" o)]
  else []

/-- Embedding of `GeneratorTeamsApp.writing` (lines 517–684).  The
existing-project branch first handles the requested build-system update:
a falsy stored `generator-version` exits with code 3, a missing updater
for the stored version exits with code 2, and an updater-reported failure
exits with code 4 (after the updater ran). -/
def writingPhase (o : ProjectOptions) (env : ScaffoldEnv) : WriteResult :=
  match o.existingManifest with
  | none =>
    { exitCode := none, effects := newProjectEffects o ++ writeTailEffects o }
  | some _ =>
    if o.updateBuildSystem then
      if jsTruthyStr env.storedGeneratorVersion = false then
        { exitCode := some 3, effects := [] }
      else
        if env.updaterExistsFor (env.storedGeneratorVersion.getD "") then
          if env.updaterResult = false then
            { exitCode := some 4, effects := [Effect.updaterRun] }
          else
            { exitCode := none,
              effects := [Effect.updaterRun] ++ manifestUpdateEffects o ++ writeTailEffects o }
        else
          { exitCode := some 2, effects := [] }
    else
      { exitCode := none, effects := manifestUpdateEffects o ++ writeTailEffects o }

/-- Outcome of one full generator run: either `process.exit` fired with a
code, or the run completed (and the process exits normally with status 0).
Both constructors carry the effects performed up to that point. -/
inductive RunOutcome where
  | exited (code : Nat) (effects : List Effect)
  | completed (opts : ProjectOptions) (effects : List Effect)
deriving Repr, DecidableEq

/-- Composition of the run: the schema check of `initializing`
(exit 1, line 144), the declined-confirmation check of the `prompting`
continuation (exit 0, line 430), option resolution for the new or the
existing branch (the new branch also performs the `libraryName` config
write of line 440), then the write phase. -/
def runScaffold (opts0 : InitialOptions) (env : ScaffoldEnv) (freshId : String) : RunOutcome :=
  if isSchemaVersionValid env.existingManifest env.schemaVersionValidWhenPresent = false then
    RunOutcome.exited 1 []
  else if env.answers.confirmedAdd = some false then
    RunOutcome.exited 0 []
  else
    match env.existingManifest with
    | none =>
      let o := applyParts env.answers (resolveNewOptions opts0 env.answers freshId)
      let w := writingPhase o env
      match w.exitCode with
      | some c => RunOutcome.exited c (Effect.configSet "libraryName" :: w.effects)
      | none => RunOutcome.completed o (Effect.configSet "libraryName" :: w.effects)
    | some m =>
      let o := applyParts env.answers (resolveExistingOptions opts0 m env.answers env)
      let w := writingPhase o env
      match w.exitCode with
      | some c => RunOutcome.exited c w.effects
      | none => RunOutcome.completed o w.effects

/-- The process exit status of one full run: the code of an explicit
`process.exit`, or 0 on normal completion. -/
def scaffoldExitCode (opts0 : InitialOptions) (env : ScaffoldEnv) (freshId : String) : Nat :=
  match runScaffold opts0 env freshId with
  | RunOutcome.exited c _ => c
  | RunOutcome.completed _ _ => 0

/-- Recognition of the telemetry opt-out environment variable
(constructor, lines 94–96): `YOTEAMS_TELEMETRY_OPTOUT` set to `"1"` or
`"true"`. -/
def optOutActive (optout : Option String) : Bool :=
  optout == some "1" || optout == some "true"

/-- Whether the Application Insights client is set up by the constructor
(lines 94–121): the in-flow telemetry flag must be on and the environment
opt-out must not be active. -/
def telemetryClientInitialized (telemetryFlag : Bool) (optout : Option String) : Bool :=
  telemetryFlag && !(optOutActive optout)

/-- The `trackEvent` names fired by `GeneratorTeamsApp.install`
(lines 690–767) on a completed run.  Event names that depend on fields set
only by the composed sub-generators (`botType`, `staticTab`, `tabSSO`) are
out of scope and omitted. -/
def installEvents (o : ProjectOptions) : List String :=
  (if o.existingManifest.isSome then ["rerun-generator"] else []) ++
  ["end-generator"] ++
  (if o.bot then ["bot"] else []) ++
  (if o.messageExtension then ["messageExtension"] else []) ++
  (if o.connector then ["connector"] else []) ++
  (if o.customBot then ["outgoingWebhook"] else []) ++
  (if o.tab then ["tab"] else []) ++
  (if o.unitTestsEnabled then ["unitTests"] else []) ++
  (if o.showLoadingIndicator then ["showLoadingIndicator"] else []) ++
  (if o.isFullScreen then ["isFullScreen"] else []) ++
  (if o.updateManifestVersion then ["updateManifest"] else []) ++
  (if o.localization then ["localization"] else [])

/-- The `trackEvent` names fired inside `GeneratorTeamsApp.writing`
(lines 629–655), reached only on the existing-project build-system-update
path. -/
def writingEvents (o : ProjectOptions) (env : ScaffoldEnv) : List String :=
  match o.existingManifest with
  | none => []
  | some _ =>
    if o.updateBuildSystem then
      if jsTruthyStr env.storedGeneratorVersion = false then
        ["update-core-files-empty"]
      else if env.updaterExistsFor (env.storedGeneratorVersion.getD "") then
        ["update-core-files"]
      else
        ["update-core-files-failed"]
    else []

/-- All `trackEvent` call sites reached during one run, each guarded as in
the source: the constructor's `start-generator` is inside the
client-set-up block itself, while every later site is guarded only by the
in-flow telemetry flag `tf` (lines 139, 634, 643, 651, 692). -/
def trackEventCalls (tf clientInit : Bool) (opts0 : InitialOptions) (env : ScaffoldEnv) (freshId : String) : List String :=
  (if clientInit then ["start-generator"] else []) ++
  (if isSchemaVersionValid env.existingManifest env.schemaVersionValidWhenPresent = false then
      (if tf then ["rerun-generator", "invalid-schema-exception"] else [])
    else if env.answers.confirmedAdd = some false then []
    else
      let o := match env.existingManifest with
        | none => applyParts env.answers (resolveNewOptions opts0 env.answers freshId)
        | some m => applyParts env.answers (resolveExistingOptions opts0 m env.answers env)
      (if tf then writingEvents o env else []) ++
      (match runScaffold opts0 env freshId with
        | RunOutcome.completed _ _ => if tf then installEvents o else []
        | RunOutcome.exited _ _ => []))

/-- The telemetry events actually emitted during one run.  Modelled from
the spec: the telemetry transport is an external collaborator, and a
client that the constructor never set up (telemetry flag off, or the
environment opt-out active) emits nothing — the guarded `trackEvent`
sites reach no configured client. -/
def emittedEvents (tf : Bool) (optout : Option String) (opts0 : InitialOptions) (env : ScaffoldEnv) (freshId : String) : List String :=
  if telemetryClientInitialized tf optout then
    trackEventCalls tf true opts0 env freshId
  else []

/-- Model of `path.join` for the single parent-folder/solution-name join
the trigger command performs. -/
def joinPath (a b : String) : String :=
  a ++ "/" ++ b

/-- The `validateInput` callback of `Scaffolder.getSolutionName`
(lines 881–892): an empty (falsy) value and a value whose target
subfolder already exists are rejected with a message; `none` means valid.
The filesystem (`existsSync`) is modelled as the list of existing
paths. -/
def validateSolutionNameInput (existingPaths : List String) (folderPath value : String) : Option String :=
  if value = "" then some "Solution name is required"
  else if joinPath folderPath value ∈ existingPaths then
    some ("Folder with \"" ++ value ++ "\" already exists")
  else none

/-- Modelled from the spec: `window.showInputBox` (editor API, out of
scope) returns a submitted value only when `validateInput` accepts it —
"validation failures during input collection [are] surfaced inline to the
operator, flow does not advance until resolved" — and `none` when the
operator cancels.  `attempt` is the value the operator finally submits,
if any. -/
def showInputBoxResult (existingPaths : List String) (folderPath : String) (attempt : Option String) : Option String :=
  attempt.bind (fun v =>
    if validateSolutionNameInput existingPaths folderPath v = none then some v else none)

/-- Observable outcome of `Scaffolder.createProject` (lines 813–854):
whether the scaffold subprocess was invoked, the solution name it was
invoked for, and the path of the marker file written on success. -/
structure TriggerOutcome where
  scaffoldInvoked : Bool
  solutionUsed : Option String
  markerWritten : Option String
deriving Repr, DecidableEq

/-- Embedding of `Scaffolder.createProject`: a missing parent folder or a
missing/cancelled solution name returns before the subprocess runs; a
non-zero subprocess status skips the marker file; on status 0 the marker
file `project.pnp` is written into the new solution subfolder. -/
def createProject (folderPick : Option String) (nameAttempt : Option String) (existingPaths : List String) (execResult : Int) : TriggerOutcome :=
  match folderPick with
  | none => { scaffoldInvoked := false, solutionUsed := none, markerWritten := none }
  | some folderPath =>
    match showInputBoxResult existingPaths folderPath nameAttempt with
    | none => { scaffoldInvoked := false, solutionUsed := none, markerWritten := none }
    | some solutionName =>
      if execResult ≠ 0 then
        { scaffoldInvoked := true, solutionUsed := some solutionName, markerWritten := none }
      else
        { scaffoldInvoked := true, solutionUsed := some solutionName,
          markerWritten := some (joinPath (joinPath folderPath solutionName) "project.pnp") }

theorem applyParts_existingManifest (a : Answers) (o : ProjectOptions) :
    (applyParts a o).existingManifest = o.existingManifest := by
  cases hp : a.parts <;> simp [applyParts, hp]

theorem applyParts_updateBuildSystem (a : Answers) (o : ProjectOptions) :
    (applyParts a o).updateBuildSystem = o.updateBuildSystem := by
  cases hp : a.parts <;> simp [applyParts, hp]

theorem applyParts_updateManifestVersion (a : Answers) (o : ProjectOptions) :
    (applyParts a o).updateManifestVersion = o.updateManifestVersion := by
  cases hp : a.parts <;> simp [applyParts, hp]

theorem applyParts_id (a : Answers) (o : ProjectOptions) :
    (applyParts a o).id = o.id := by
  cases hp : a.parts <;> simp [applyParts, hp]

theorem applyParts_libraryName (a : Answers) (o : ProjectOptions) :
    (applyParts a o).libraryName = o.libraryName := by
  cases hp : a.parts <;> simp [applyParts, hp]

theorem applyParts_packageName (a : Answers) (o : ProjectOptions) :
    (applyParts a o).packageName = o.packageName := by
  cases hp : a.parts <;> simp [applyParts, hp]

theorem applyParts_mpnId (a : Answers) (o : ProjectOptions) :
    (applyParts a o).mpnId = o.mpnId := by
  cases hp : a.parts <;> simp [applyParts, hp]

theorem applyParts_lintingSupport (a : Answers) (o : ProjectOptions) :
    (applyParts a o).lintingSupport = o.lintingSupport := by
  cases hp : a.parts <;> simp [applyParts, hp]

theorem applyParts_developer (a : Answers) (o : ProjectOptions) :
    (applyParts a o).developer = o.developer := by
  cases hp : a.parts <;> simp [applyParts, hp]

theorem applyParts_title (a : Answers) (o : ProjectOptions) :
    (applyParts a o).title = o.title := by
  cases hp : a.parts <;> simp [applyParts, hp]

theorem applyParts_host (a : Answers) (o : ProjectOptions) :
    (applyParts a o).host = o.host := by
  cases hp : a.parts <;> simp [applyParts, hp]

theorem applyParts_hostname (a : Answers) (o : ProjectOptions) :
    (applyParts a o).hostname = o.hostname := by
  cases hp : a.parts <;> simp [applyParts, hp]

theorem applyParts_websitePfx (a : Answers) (o : ProjectOptions) :
    (applyParts a o).websitePfx = o.websitePfx := by
  cases hp : a.parts <;> simp [applyParts, hp]

theorem applyParts_namespace (a : Answers) (o : ProjectOptions) :
    (applyParts a o).namespace_ = o.namespace_ := by
  cases hp : a.parts <;> simp [applyParts, hp]

/-- The `when` condition of the linting prompt (line 401): asked only on a
new project when quick scaffolding was declined. -/
def lintingPromptAsked (existingManifestPresent : Bool) (a : Answers) : Bool :=
  !existingManifestPresent && !a.quickScaffolding

/-- Characters unsafe in folder/file names, for the path-safety hypothesis
of the name-derivation property (modelled from the spec's "path-unsafe
characters"). -/
def pathUnsafeChars : List Char :=
  ['/', '\\', ':', '*', '?', '"', '<', '>', '|']

/-- A solution name containing no path-unsafe characters. -/
def pathSafe (s : String) : Bool :=
  s.toList.all (fun c => !(pathUnsafeChars.contains c))

/-- C10: for every new-project run whose quick-scaffolding answer is true,
the resolved `lintingSupport` option is true regardless of any stored or
answered linting value, and the linting prompt is skipped. -/
theorem quick_scaffolding_forces_linting (opts0 : InitialOptions) (a : Answers) (freshId : String)
    (h : a.quickScaffolding = true) :
    (applyParts a (resolveNewOptions opts0 a freshId)).lintingSupport = true ∧
    lintingPromptAsked false a = false := by
  constructor
  · rw [applyParts_lintingSupport]
    simp [resolveNewOptions, h]
  · simp [lintingPromptAsked, h]

/-- Answers of a new-project run used as concrete witnesses: quick
scaffolding on, linting answer absent. -/
def quickAnswers : Answers :=
  { solutionName := "my solution", name := "My App", developer := "Contoso",
    manifestVersion := some "1.16", host := "https://myapp.example.org",
    quickScaffolding := true, lintingSupport := some false }

theorem quick_scaffolding_forces_linting_witness :
    quickAnswers.quickScaffolding = true ∧
    ((applyParts quickAnswers (resolveNewOptions {} quickAnswers "uid")).lintingSupport = true ∧
      lintingPromptAsked false quickAnswers = false) :=
  ⟨rfl, quick_scaffolding_forces_linting {} quickAnswers "uid" rfl⟩

/-- C6: for every solution name with no path-unsafe characters, the
derived library name is the camelCase form of the (effective) solution
name and the derived package name is the lower-cased library name. -/
theorem library_and_package_name_derivation (opts0 : InitialOptions) (a : Answers) (freshId : String)
    (h : pathSafe (jsOrStr opts0.solutionName a.solutionName) = true) :
    (applyParts a (resolveNewOptions opts0 a freshId)).libraryName
        = camelCase (jsOrStr opts0.solutionName a.solutionName) ∧
    (applyParts a (resolveNewOptions opts0 a freshId)).packageName
        = toLocaleLowerCase ((applyParts a (resolveNewOptions opts0 a freshId)).libraryName) := by
  rw [applyParts_libraryName, applyParts_packageName]
  exact ⟨rfl, rfl⟩

theorem library_and_package_name_derivation_witness :
    pathSafe (jsOrStr (InitialOptions.solutionName {}) (Answers.solutionName { solutionName := "My solution" })) = true ∧
    ((applyParts { solutionName := "My solution" } (resolveNewOptions {} { solutionName := "My solution" } "uid")).libraryName
        = camelCase (jsOrStr (InitialOptions.solutionName {}) (Answers.solutionName { solutionName := "My solution" })) ∧
      (applyParts { solutionName := "My solution" } (resolveNewOptions {} { solutionName := "My solution" } "uid")).packageName
        = toLocaleLowerCase ((applyParts { solutionName := "My solution" } (resolveNewOptions {} { solutionName := "My solution" } "uid")).libraryName)) :=
  ⟨by decide, library_and_package_name_derivation {} { solutionName := "My solution" } "uid" (by decide)⟩

/-- Answers of a new-project run where the operator leaves the MPN id
prompt blank: the submitted answer is the empty string. -/
def emptyMpnAnswers : Answers :=
  { solutionName := "my solution", name := "My App", developer := "Contoso",
    manifestVersion := some "1.16", host := "https://myapp.example.org",
    mpnId := some "" }

/-- C2: evaluation at the failing input.  The source guard
`this.options.mpnId && this.options.mpnId.length == 0` (lines 448–450) is
never true — an empty string is falsy — so an empty MPN id answer is left
as the empty string instead of being normalised to `undefined`. -/
theorem mpn_empty_resolves_to_empty_string :
    (applyParts emptyMpnAnswers (resolveNewOptions {} emptyMpnAnswers "uid")).mpnId = some "" := by
  rw [applyParts_mpnId]
  rfl

/-- Answers of a new-project run with the host answer of the
host-derivation property: `https://Foo.azurewebsites.net/`. -/
def fooHostAnswers : Answers :=
  { solutionName := "foo", name := "Foo", developer := "Contoso",
    manifestVersion := some "1.16", host := "https://Foo.azurewebsites.net/" }

/-- C3 counterexample: with host answer `https://Foo.azurewebsites.net/`
the claimed conjunction fails, because the website prefix is taken from
the normalised host without lower-casing (line 455) and so resolves to
`Foo`, not `foo`. -/
theorem host_resolution_claim_false :
    ¬ ((applyParts fooHostAnswers (resolveNewOptions {} fooHostAnswers "uid")).host
          = "https://Foo.azurewebsites.net" ∧
       (applyParts fooHostAnswers (resolveNewOptions {} fooHostAnswers "uid")).hostname
          = "foo.azurewebsites.net" ∧
       (applyParts fooHostAnswers (resolveNewOptions {} fooHostAnswers "uid")).namespace_
          = "net.azurewebsites.foo" ∧
       (applyParts fooHostAnswers (resolveNewOptions {} fooHostAnswers "uid")).websitePfx
          = "foo") := by
  intro h
  have := h.2.2.2
  rw [applyParts_websitePfx] at this
  exact absurd this (by decide)

/-- C3 amended: for host answer `https://Foo.azurewebsites.net/` the
resolved host is `https://Foo.azurewebsites.net` (trailing slash
stripped), the hostname is `foo.azurewebsites.net`, the namespace is
`net.azurewebsites.foo`, and the website prefix is `Foo` — the prefix
keeps the host's original casing. -/
theorem host_resolution_amended :
    (applyParts fooHostAnswers (resolveNewOptions {} fooHostAnswers "uid")).host
        = "https://Foo.azurewebsites.net" ∧
    (applyParts fooHostAnswers (resolveNewOptions {} fooHostAnswers "uid")).hostname
        = "foo.azurewebsites.net" ∧
    (applyParts fooHostAnswers (resolveNewOptions {} fooHostAnswers "uid")).namespace_
        = "net.azurewebsites.foo" ∧
    (applyParts fooHostAnswers (resolveNewOptions {} fooHostAnswers "uid")).websitePfx
        = "Foo" := by
  rw [applyParts_host, applyParts_hostname, applyParts_namespace, applyParts_websitePfx]
  exact ⟨by decide, by decide, by decide, by decide⟩

/-- C8: resolving options for a brand-new project twice with identical
answers (and no existing manifest) yields identical `ProjectOptions`
records except for the generated app id: the two records agree after
overwriting the first id with the second, and the ids themselves differ
whenever the two `uuid()` draws differ. -/
theorem new_options_deterministic_except_id (opts0 : InitialOptions) (a : Answers)
    (id1 id2 : String) (h : id1 ≠ id2) :
    (applyParts a (resolveNewOptions opts0 a id1)).id = id1 ∧
    (applyParts a (resolveNewOptions opts0 a id2)).id = id2 ∧
    (applyParts a (resolveNewOptions opts0 a id1)).id ≠ (applyParts a (resolveNewOptions opts0 a id2)).id ∧
    { applyParts a (resolveNewOptions opts0 a id1) with id := id2 }
        = applyParts a (resolveNewOptions opts0 a id2) := by
  refine ⟨applyParts_id a _, applyParts_id a _, ?_, ?_⟩
  · rw [applyParts_id, applyParts_id]
    exact h
  · cases hp : a.parts <;> simp [applyParts, resolveNewOptions, hp]

theorem new_options_deterministic_except_id_witness :
    ("id-one" ≠ "id-two") ∧
    ((applyParts quickAnswers (resolveNewOptions {} quickAnswers "id-one")).id = "id-one" ∧
      (applyParts quickAnswers (resolveNewOptions {} quickAnswers "id-two")).id = "id-two" ∧
      (applyParts quickAnswers (resolveNewOptions {} quickAnswers "id-one")).id
          ≠ (applyParts quickAnswers (resolveNewOptions {} quickAnswers "id-two")).id ∧
      { applyParts quickAnswers (resolveNewOptions {} quickAnswers "id-one") with id := "id-two" }
          = applyParts quickAnswers (resolveNewOptions {} quickAnswers "id-two")) :=
  ⟨by decide, new_options_deterministic_except_id {} quickAnswers "id-one" "id-two" (by decide)⟩

/-- A concrete existing manifest with every field non-empty. -/
def sampleManifest : ExistingManifest :=
  { manifestVersion := "1.13", nameShort := "My App",
    developerName := "Contoso", websiteUrl := "https://myapp.example.org" }

/-- Answers of a re-run on an existing project where the operator confirms
continuing. -/
def rerunAnswers : Answers :=
  { confirmedAdd := some true, parts := some ["tab"] }

/-- A concrete environment for a re-run on `sampleManifest`. -/
def sampleExistingEnv : ScaffoldEnv :=
  { existingManifest := some sampleManifest
    schemaVersionValidWhenPresent := true
    answers := rerunAnswers
    storedGeneratorVersion := some "3.5.0"
    updaterExistsFor := fun _ => true
    updaterResult := true
    pkgVersion := "4.0.1"
    webpackLibraryName := none
    configLibraryName := none
    configUseAzureAppInsights := none
    configUnitTestsEnabled := none
    pkgJsonName := "myapp"
    manifestVersionFromValue := fun v => v }

/-- C5 counterexample: on a concrete existing project whose manifest
fields are all non-empty, the resolved hostname is the empty string
(line 473 assigns the constant `""`), so it equals none of the manifest's
fields — the hostname is not taken from the existing manifest. -/
theorem existing_hostname_not_from_manifest :
    (applyParts rerunAnswers (resolveExistingOptions {} sampleManifest rerunAnswers sampleExistingEnv)).hostname = "" ∧
    sampleManifest.websiteUrl ≠ "" ∧
    sampleManifest.developerName ≠ "" ∧
    sampleManifest.nameShort ≠ "" ∧
    sampleManifest.manifestVersion ≠ "" := by
  refine ⟨?_, by decide, by decide, by decide, by decide⟩
  rw [applyParts_hostname]
  rfl

/-- C5 amended: on an existing project the developer name and title are
taken from the existing manifest and the host is taken from the manifest
developer's website URL, while the hostname is set to the empty string;
the library name is resolved by probing, in order, (a) the
webpack-config-declared name, (b) the stored `libraryName` config entry,
(c) the `package.json` name — the first truthy match wins. -/
theorem existing_options_resolution (opts0 : InitialOptions) (m : ExistingManifest)
    (a : Answers) (env : ScaffoldEnv) :
    (applyParts a (resolveExistingOptions opts0 m a env)).developer = m.developerName ∧
    (applyParts a (resolveExistingOptions opts0 m a env)).title = m.nameShort ∧
    (applyParts a (resolveExistingOptions opts0 m a env)).host = m.websiteUrl ∧
    (applyParts a (resolveExistingOptions opts0 m a env)).hostname = "" ∧
    (jsTruthyStr env.webpackLibraryName = true →
      (applyParts a (resolveExistingOptions opts0 m a env)).libraryName = env.webpackLibraryName.getD "") ∧
    (jsTruthyStr env.webpackLibraryName = false → jsTruthyStr env.configLibraryName = true →
      (applyParts a (resolveExistingOptions opts0 m a env)).libraryName = env.configLibraryName.getD "") ∧
    (jsTruthyStr env.webpackLibraryName = false → jsTruthyStr env.configLibraryName = false →
      (applyParts a (resolveExistingOptions opts0 m a env)).libraryName = env.pkgJsonName) := by
  rw [applyParts_developer, applyParts_title, applyParts_host, applyParts_hostname,
    applyParts_libraryName]
  refine ⟨rfl, rfl, rfl, rfl, ?_, ?_, ?_⟩
  · intro h1
    simp [resolveExistingOptions, h1]
  · intro h1 h2
    simp [resolveExistingOptions, h1, h2]
  · intro h1 h2
    simp [resolveExistingOptions, h1, h2]

theorem existing_options_resolution_witness :
    (applyParts rerunAnswers (resolveExistingOptions {} sampleManifest rerunAnswers sampleExistingEnv)).developer
        = sampleManifest.developerName ∧
    (applyParts rerunAnswers (resolveExistingOptions {} sampleManifest rerunAnswers sampleExistingEnv)).title
        = sampleManifest.nameShort ∧
    (applyParts rerunAnswers (resolveExistingOptions {} sampleManifest rerunAnswers sampleExistingEnv)).host
        = sampleManifest.websiteUrl ∧
    (applyParts rerunAnswers (resolveExistingOptions {} sampleManifest rerunAnswers sampleExistingEnv)).hostname = "" ∧
    (jsTruthyStr sampleExistingEnv.webpackLibraryName = true →
      (applyParts rerunAnswers (resolveExistingOptions {} sampleManifest rerunAnswers sampleExistingEnv)).libraryName
          = sampleExistingEnv.webpackLibraryName.getD "") ∧
    (jsTruthyStr sampleExistingEnv.webpackLibraryName = false →
        jsTruthyStr sampleExistingEnv.configLibraryName = true →
      (applyParts rerunAnswers (resolveExistingOptions {} sampleManifest rerunAnswers sampleExistingEnv)).libraryName
          = sampleExistingEnv.configLibraryName.getD "") ∧
    (jsTruthyStr sampleExistingEnv.webpackLibraryName = false →
        jsTruthyStr sampleExistingEnv.configLibraryName = false →
      (applyParts rerunAnswers (resolveExistingOptions {} sampleManifest rerunAnswers sampleExistingEnv)).libraryName
          = sampleExistingEnv.pkgJsonName) :=
  existing_options_resolution {} sampleManifest rerunAnswers sampleExistingEnv

/-- C4: if a build-system update is requested on an existing project and
no (truthy) generator version is stored, the run exits with code 3 having
performed no file write and no configuration-store write — the effect
list of the outcome is empty. -/
theorem update_build_missing_version_exits3 (opts0 : InitialOptions) (env : ScaffoldEnv)
    (freshId : String) (m : ExistingManifest)
    (hm : env.existingManifest = some m)
    (hschema : env.schemaVersionValidWhenPresent = true)
    (hconf : env.answers.confirmedAdd ≠ some false)
    (hupd : env.answers.updateBuildSystem = some true)
    (hstored : jsTruthyStr env.storedGeneratorVersion = false) :
    runScaffold opts0 env freshId = RunOutcome.exited 3 [] := by
  unfold runScaffold
  rw [hm]
  simp only [isSchemaVersionValid, hschema, hconf]
  simp only [Bool.true_eq_false, if_false, if_neg hconf]
  have hex : (applyParts env.answers (resolveExistingOptions opts0 m env.answers env)).existingManifest
      = some m := by
    rw [applyParts_existingManifest]; rfl
  have hub : (applyParts env.answers (resolveExistingOptions opts0 m env.answers env)).updateBuildSystem
      = true := by
    rw [applyParts_updateBuildSystem]
    simp [resolveExistingOptions, hupd]
  unfold writingPhase
  rw [hex, hub]
  simp [hstored]

/-- Environment of a re-run that requests a build-system update while the
configuration store holds no generator version. -/
def envNoStoredVersion : ScaffoldEnv :=
  { sampleExistingEnv with
    storedGeneratorVersion := none
    answers := { confirmedAdd := some true, updateBuildSystem := some true } }

theorem update_build_missing_version_exits3_witness :
    envNoStoredVersion.existingManifest = some sampleManifest ∧
    envNoStoredVersion.schemaVersionValidWhenPresent = true ∧
    envNoStoredVersion.answers.confirmedAdd ≠ some false ∧
    envNoStoredVersion.answers.updateBuildSystem = some true ∧
    jsTruthyStr envNoStoredVersion.storedGeneratorVersion = false ∧
    runScaffold {} envNoStoredVersion "uid" = RunOutcome.exited 3 [] :=
  ⟨rfl, rfl, by decide, rfl, rfl,
    update_build_missing_version_exits3 {} envNoStoredVersion "uid" sampleManifest
      rfl rfl (by decide) rfl rfl⟩

/-- C7: when the telemetry opt-out environment variable is set to `"1"` or
`"true"`, no telemetry event is emitted during the run, whatever the
in-flow telemetry flag and however the run unfolds. -/
theorem telemetry_optout_no_events (tf : Bool) (optout : Option String)
    (opts0 : InitialOptions) (env : ScaffoldEnv) (freshId : String)
    (h : optout = some "1" ∨ optout = some "true") :
    emittedEvents tf optout opts0 env freshId = [] := by
  rcases h with h | h <;>
    simp [emittedEvents, telemetryClientInitialized, optOutActive, h]

theorem telemetry_optout_no_events_witness :
    ((some "1" : Option String) = some "1" ∨ (some "1" : Option String) = some "true") ∧
    emittedEvents true (some "1") {} sampleExistingEnv "uid" = [] :=
  ⟨Or.inl rfl,
    telemetry_optout_no_events true (some "1") {} sampleExistingEnv "uid" (Or.inl rfl)⟩

/-- C9: the trigger command never invokes the scaffold subprocess for a
solution name whose target subfolder already exists under the chosen
parent folder, and whenever the subprocess is invoked the accepted
solution name is non-empty and non-colliding. -/
theorem trigger_rejects_existing_folder (folderPath v : String) (attempt : Option String)
    (existingPaths : List String) (execResult : Int) :
    (joinPath folderPath v ∈ existingPaths →
      (createProject (some folderPath) (some v) existingPaths execResult).scaffoldInvoked = false) ∧
    ((createProject (some folderPath) attempt existingPaths execResult).scaffoldInvoked = true →
      ∃ w, attempt = some w ∧ w ≠ "" ∧ joinPath folderPath w ∉ existingPaths) := by
  constructor
  · intro hcoll
    by_cases hv : v = "" <;>
      simp [createProject, showInputBoxResult, validateSolutionNameInput, hv, hcoll]
  · intro hinv
    cases ha : attempt with
    | none =>
      rw [ha] at hinv
      simp [createProject, showInputBoxResult] at hinv
    | some w =>
      rw [ha] at hinv
      by_cases hw : w = ""
      · rw [hw] at hinv
        simp [createProject, showInputBoxResult, validateSolutionNameInput] at hinv
      · by_cases hcoll : joinPath folderPath w ∈ existingPaths
        · simp [createProject, showInputBoxResult, validateSolutionNameInput, hw, hcoll] at hinv
        · exact ⟨w, rfl, hw, hcoll⟩

theorem trigger_rejects_existing_folder_witness :
    (joinPath "/home/user" "taken" ∈ ["/home/user/taken"] →
      (createProject (some "/home/user") (some "taken") ["/home/user/taken"] 0).scaffoldInvoked = false) ∧
    ((createProject (some "/home/user") (some "fresh") ["/home/user/taken"] 0).scaffoldInvoked = true →
      ∃ w, (some "fresh" : Option String) = some w ∧ w ≠ "" ∧
        joinPath "/home/user" w ∉ ["/home/user/taken"]) :=
  trigger_rejects_existing_folder "/home/user" "taken" (some "fresh") ["/home/user/taken"] 0

/-- The exit-code contract of spec §6, written from its words over the run
environment: 0 for normal success or a declined re-run; 1 when an existing
manifest's schema version is unsupported; 3 when a build-system update is
requested with no (truthy) stored generator version; 2 when an updater for
the stored version does not exist; 4 when the updater reports failure. -/
def specExitCodeContract (env : ScaffoldEnv) : Nat :=
  if env.existingManifest.isSome ∧ env.schemaVersionValidWhenPresent = false then 1
  else if env.answers.confirmedAdd = some false then 0
  else if env.existingManifest.isSome ∧ env.answers.updateBuildSystem.getD false = true
      ∧ jsTruthyStr env.storedGeneratorVersion = false then 3
  else if env.existingManifest.isSome ∧ env.answers.updateBuildSystem.getD false = true
      ∧ env.updaterExistsFor (env.storedGeneratorVersion.getD "") = false then 2
  else if env.existingManifest.isSome ∧ env.answers.updateBuildSystem.getD false = true
      ∧ env.updaterResult = false then 4
  else 0

/-- C1: the process exit code of every scaffold run equals the fixed
contract of spec §6. -/
theorem scaffold_exit_code_contract (opts0 : InitialOptions) (env : ScaffoldEnv) (freshId : String) :
    scaffoldExitCode opts0 env freshId = specExitCodeContract env := by
  unfold scaffoldExitCode runScaffold specExitCodeContract
  cases hm : env.existingManifest with
  | none =>
    have hnew : (applyParts env.answers (resolveNewOptions opts0 env.answers freshId)).existingManifest
        = none := by
      rw [applyParts_existingManifest]; rfl
    by_cases hc : env.answers.confirmedAdd = some false <;>
      simp [isSchemaVersionValid, hm, hc, writingPhase, hnew]
  | some m =>
    have hex : (applyParts env.answers (resolveExistingOptions opts0 m env.answers env)).existingManifest
        = some m := by
      rw [applyParts_existingManifest]; rfl
    have hub : (applyParts env.answers (resolveExistingOptions opts0 m env.answers env)).updateBuildSystem
        = env.answers.updateBuildSystem.getD false := by
      rw [applyParts_updateBuildSystem]; rfl
    by_cases hs : env.schemaVersionValidWhenPresent = false
    · simp [isSchemaVersionValid, hm, hs]
    · by_cases hc : env.answers.confirmedAdd = some false
      · simp [isSchemaVersionValid, hm, hs, hc]
      · by_cases hu : env.answers.updateBuildSystem.getD false = true
        · by_cases hst : jsTruthyStr env.storedGeneratorVersion = false
          · simp [isSchemaVersionValid, hm, hs, hc, hu, hst, writingPhase, hex, hub]
          · by_cases hupd : env.updaterExistsFor (env.storedGeneratorVersion.getD "") = false
            · simp [isSchemaVersionValid, hm, hs, hc, hu, hst, hupd, writingPhase, hex, hub]
            · by_cases hres : env.updaterResult = false <;>
                simp [isSchemaVersionValid, hm, hs, hc, hu, hst, hupd, hres, writingPhase, hex, hub]
        · simp [isSchemaVersionValid, hm, hs, hc, hu, writingPhase, hex, hub]
